import Mathlib

/-!
# Verification of the Layer-AI authorization core

Shallow embedding of the agent authorization pipeline from
`ai_agent_mvp/routers/agent.py` together with the parts of the data model
(`ai_agent_mvp/models.py`, `ai_agent_mvp/database.py`) that it reads and
writes.  Database rows become Lean structures, the SQL session becomes an
explicit `Store` value threaded through the functions, and Python
exceptions become explicit outcomes: `HTTPException` is an `Except.error`,
and unexpected internal faults are injected through a `Faults` record
(`some msg` at an injection point means that operation raises an exception
carrying message `msg`; `none` means it succeeds).  Fresh UUIDs and
timestamps are environment-supplied, so the fresh id for a created
`PendingRequest` is passed as an explicit `freshId` argument, and `Log`
timestamps / row ids are not modelled (no claim mentions them).  The JSON
round-trip of a decision trace through `json.dumps` / `json.loads` is the
identity on well-formed traces and is modelled as such: `PendingRequest`
stores the trace as a structured list.
-/

namespace LayerAI

/-- An `agents` table row (`models.Agent`). -/
structure Agent where
  id : String
  name : String
  owner : String
  status : String
deriving Repr, DecidableEq

/-- A `permissions` table row (`models.Permission`). -/
structure Permission where
  id : String
  agent_id : String
  action : String
  resource : String
  condition : Option String
deriving Repr, DecidableEq

/-- A `logs` table row (`models.Log`); the generated id and timestamp are
not modelled. -/
structure LogRow where
  agent_id : String
  action : String
  resource : String
  result : String
deriving Repr, DecidableEq

/-- One decision-trace element. -/
structure TraceEntry where
  rule_checked : String
  rule_result : String
  notes : String
deriving Repr, DecidableEq

/-- A `pending_requests` table row (`models.PendingRequest`); the stored
JSON string `decision_trace` is modelled as the structured trace list and
`created_at` is not modelled. -/
structure PendingRequest where
  request_id : String
  agent_id : String
  action : String
  resource : String
  reason : String
  decision_trace : List TraceEntry
  action_required : String
  status : String
deriving Repr, DecidableEq

/-- The database state read and written by the router: the
`system_state` row for key `"system_kill_switch"` (`none` when the row is
absent), and the `agents`, `permissions`, `logs` and `pending_requests`
tables. -/
structure Store where
  killSwitch : Option String
  agents : List Agent
  permissions : List Permission
  logs : List LogRow
  pending : List PendingRequest
deriving Repr, DecidableEq

/-- `models.AgentRequestResponse`. -/
structure AgentRequestResponse where
  result : String
  message : String
  reason : String
  decision_trace : List TraceEntry
  action_required : Option String
deriving Repr, DecidableEq

/-- `models.HumanDecisionResponse`. -/
structure HumanDecisionResponse where
  result : String
  reason : String
  decision_trace : List TraceEntry
  action_required : Option String
deriving Repr, DecidableEq

/-- `models.AgentKillResponse`. -/
structure AgentKillResponse where
  result : String
  message : String
deriving Repr, DecidableEq

/-- `models.SystemKillSwitchResponse`. -/
structure SystemKillSwitchResponse where
  status : String
  message : String
deriving Repr, DecidableEq

/-- Fault injection for the storage operations the pipeline performs:
a field holding `some msg` means that operation raises an exception whose
text is `msg`; `none` means it behaves normally. -/
structure Faults where
  killRead : Option String
  agentRead : Option String
  permRead : Option String
  logWrite : Option String
  pendingWrite : Option String
deriving Repr, DecidableEq

/-- The fault-free environment: every storage operation succeeds. -/
def noFaults : Faults :=
  { killRead := none, agentRead := none, permRead := none,
    logWrite := none, pendingWrite := none }

/-- `check_system_kill_switch` (agent.py lines 34-58): the row is read by
primary key; an absent row defaults to OFF, otherwise the switch is ON
exactly when the stored value equals `"enabled"`. -/
def check_system_kill_switch (st : Store) : Bool :=
  match st.killSwitch with
  | none => false
  | some v => v == "enabled"

/-- `check_permission` (agent.py lines 61-92): a permission row matching
`agent_id`, `action` and `resource` exactly suffices; the `condition`
field is never evaluated. -/
def check_permission (st : Store) (agent_id action resource : String) : Bool :=
  (st.permissions.find? (fun p =>
    p.agent_id == agent_id && p.action == action && p.resource == resource)).isSome

/-- `log_action` (agent.py lines 95-115): append one `Log` row. -/
def log_action (st : Store) (agent_id action resource result : String) : Store :=
  { st with logs := st.logs ++ [⟨agent_id, action, resource, result⟩] }

/-- `session.get(Agent, agent_id)`: primary-key lookup in the agents table. -/
def getAgent (st : Store) (agent_id : String) : Option Agent :=
  st.agents.find? (fun a => a.id == agent_id)

/-- `session.get(PendingRequest, request_id)`: primary-key lookup in the
pending-requests table. -/
def getPending (st : Store) (request_id : String) : Option PendingRequest :=
  st.pending.find? (fun p => p.request_id == request_id)

/-- Outcome of the `try` block of `agent_request`:
`ret` is a normal `return`, `http` is a raised `HTTPException` (re-raised
by the first `except` clause), `exn` is any other exception, carrying the
exception text, the in-memory `decision_trace` at the raise point, and the
store as already committed at the raise point. -/
inductive TryOut where
  | ret (resp : AgentRequestResponse) (st : Store)
  | http (code : Nat) (detail : String)
  | exn (msg : String) (trace : List TraceEntry) (st : Store)
deriving Repr, DecidableEq

/-- The `try` block of `agent_request` (agent.py lines 157-268), with
fault-injection points at the kill-switch read, the agent read, the
permission read, each `log_action` call and the pending-request commit. -/
def tryBody (st : Store) (f : Faults) (agent_id action resource freshId : String) :
    TryOut :=
  match f.killRead with
  | some m => .exn m [] st
  | none =>
    if check_system_kill_switch st then
      let trace := [⟨"kill_switch", "failed", "kill switch enabled - all requests blocked"⟩]
      match f.logWrite with
      | some m => .exn m trace st
      | none =>
        let st1 := log_action st agent_id action resource "denied"
        match f.pendingWrite with
        | some m => .exn m trace st1
        | none =>
          let st2 := { st1 with pending := st1.pending ++
            [⟨freshId, agent_id, action, resource, "system_kill_switch_enabled",
              trace, "human_intervention", "pending"⟩] }
          .ret ⟨"denied",
            "System-wide kill switch is enabled. All agent actions are blocked.",
            "system_kill_switch_enabled", trace, some "human_intervention"⟩ st2
    else
      let trace := [⟨"kill_switch", "passed", "kill switch off"⟩]
      match f.agentRead with
      | some m => .exn m trace st
      | none =>
        match getAgent st agent_id with
        | none => .http 404 ("Agent " ++ agent_id ++ " not found")
        | some agent =>
          if agent.status == "disabled" then
            let trace2 := trace ++
              [⟨"agent_status", "failed", "agent " ++ agent_id ++ " is disabled"⟩]
            match f.logWrite with
            | some m => .exn m trace2 st
            | none =>
              let st1 := log_action st agent_id action resource "denied"
              .ret ⟨"denied", "Agent " ++ agent_id ++ " is disabled",
                "agent_disabled", trace2, none⟩ st1
          else
            let trace2 := trace ++ [⟨"agent_status", "passed", "agent active"⟩]
            match f.permRead with
            | some m => .exn m trace2 st
            | none =>
              if check_permission st agent_id action resource then
                let trace3 := trace2 ++ [⟨"permission_rule", "passed",
                  "permission granted for " ++ action ++ " on " ++ resource⟩]
                match f.logWrite with
                | some m => .exn m trace3 st
                | none =>
                  let st1 := log_action st agent_id action resource "approved"
                  .ret ⟨"approved",
                    "Permission granted for " ++ action ++ " on " ++ resource,
                    "all_checks_passed", trace3, none⟩ st1
              else
                let trace3 := trace2 ++ [⟨"permission_rule", "failed",
                  "no permission for " ++ action ++ " on " ++ resource⟩]
                match f.logWrite with
                | some m => .exn m trace3 st
                | none =>
                  let st1 := log_action st agent_id action resource "denied"
                  .ret ⟨"denied", "No permission for " ++ action ++ " on " ++ resource,
                    "permission_rule_failed", trace3, none⟩ st1

/-- The `except Exception` handler of `agent_request` (agent.py lines
273-310): append a `system_error` trace entry, attempt the audit log write
and the pending-request write with each failure swallowed, and return a
denied decision. -/
def handle_error (st : Store) (f : Faults)
    (agent_id action resource freshId msg : String) (trace : List TraceEntry) :
    AgentRequestResponse × Store :=
  let trace2 := trace ++ [⟨"system_error", "failed", "system error occurred: " ++ msg⟩]
  let st1 := match f.logWrite with
    | some _ => st
    | none => log_action st agent_id action resource "denied"
  let st2 := match f.pendingWrite with
    | some _ => st1
    | none => { st1 with pending := st1.pending ++
        [⟨freshId, agent_id, action, resource, "system_error",
          trace2, "human_intervention", "pending"⟩] }
  (⟨"denied", "System error occurred during request processing",
    "system_error", trace2, some "human_intervention"⟩, st2)

/-- `agent_request` = `authorize` (agent.py lines 118-310): run the try
block; a normal return and a handled internal fault both yield a returned
response (`Except.ok`), an `HTTPException` propagates (`Except.error`). -/
def agent_request (st : Store) (f : Faults)
    (agent_id action resource freshId : String) :
    Except (Nat × String) (AgentRequestResponse × Store) :=
  match tryBody st f agent_id action resource freshId with
  | .ret resp st1 => .ok (resp, st1)
  | .http code detail => .error (code, detail)
  | .exn msg trace st1 =>
      .ok (handle_error st1 f agent_id action resource freshId msg trace)

/-- The status update `pending_request.status = "resolved"` committed
through the session: the row with the given primary key gets status
`"resolved"`. -/
def resolvePending (st : Store) (request_id : String) : Store :=
  { st with pending := st.pending.map (fun p =>
      if p.request_id == request_id then { p with status := "resolved" } else p) }

/-- The fail-safe response both resolvers return for an absent or
already-resolved request id (agent.py lines 557-568 and 644-655). -/
def resolverErrorResponse (request_id : String) : HumanDecisionResponse :=
  ⟨"denied", "system_error",
    [⟨"human_decision", "failed",
      "request_id " ++ request_id ++ " not found or already resolved"⟩], none⟩

/-- `human_approve` (agent.py lines 513-597). -/
def human_approve (st : Store) (request_id human_id : String) :
    HumanDecisionResponse × Store :=
  match getPending st request_id with
  | none => (resolverErrorResponse request_id, st)
  | some pr =>
    if pr.status == "pending" then
      let trace := pr.decision_trace ++
        [⟨"human_decision", "passed", "approved by human " ++ human_id⟩]
      let st1 := resolvePending st request_id
      let st2 := log_action st1 pr.agent_id pr.action pr.resource "approved"
      (⟨"approved", "human_override", trace, none⟩, st2)
    else
      (resolverErrorResponse request_id, st)

/-- The notes text for a human denial (agent.py lines 663-666). -/
def deny_notes (human_id : String) (nts : Option String) : String :=
  match nts with
  | some n => "denied by human " ++ human_id ++ " (" ++ n ++ ")"
  | none => "denied by human " ++ human_id

/-- `human_deny` (agent.py lines 600-689). -/
def human_deny (st : Store) (request_id human_id : String) (nts : Option String) :
    HumanDecisionResponse × Store :=
  match getPending st request_id with
  | none => (resolverErrorResponse request_id, st)
  | some pr =>
    if pr.status == "pending" then
      let trace := pr.decision_trace ++
        [⟨"human_decision", "failed", deny_notes human_id nts⟩]
      let st1 := resolvePending st request_id
      let st2 := log_action st1 pr.agent_id pr.action pr.resource "denied"
      (⟨"denied", "human_override", trace, none⟩, st2)
    else
      (resolverErrorResponse request_id, st)

/-- `agent_kill` (agent.py lines 313-370): the per-agent enable/disable
endpoint.  Note that it logs result `"enabled"` / `"disabled"`. -/
def agent_kill (st : Store) (agent_id owner : String) (enabled : Bool) :
    Except (Nat × String) (AgentKillResponse × Store) :=
  match getAgent st agent_id with
  | none => .error (404, "Agent " ++ agent_id ++ " not found")
  | some agent =>
    if agent.owner != owner then
      .error (403, "Permission denied: Only owner can enable or disable this agent")
    else
      let newStatus := if enabled then "active" else "disabled"
      let result_status := if enabled then "enabled" else "disabled"
      let st1 := { st with agents := st.agents.map (fun a =>
        if a.id == agent_id then { a with status := newStatus } else a) }
      let st2 := log_action st1 agent_id "kill" "agent" result_status
      .ok (⟨result_status,
        "Agent " ++ agent_id ++ " has been " ++ result_status ++ " by owner " ++ owner⟩,
        st2)

/-- `set_system_kill_switch` (agent.py lines 373-427): upsert the
`system_state` row, then log the change with result `"enabled"` /
`"disabled"`. -/
def set_system_kill_switch (st : Store) (enabled : Bool) :
    SystemKillSwitchResponse × Store :=
  let v := if enabled then "enabled" else "disabled"
  let st1 := { st with killSwitch := some v }
  let st2 := log_action st1 "system" "system_kill_switch" "system" v
  (⟨v, "System kill switch has been " ++ v ++ "."⟩, st2)

/-- A concrete sample store used by witnesses: kill switch stored as
`"disabled"`, one active agent `"a1"` owned by `"o1"`, and one permission
row `("a1", "read", "db")`. -/
def sampleStore : Store :=
  ⟨some "disabled", [⟨"a1", "Agent One", "o1", "active"⟩],
   [⟨"p1", "a1", "read", "db", none⟩], [], []⟩

/-! ## Helper lemmas -/

/-- The kill-switch field does not affect the agent lookup. -/
@[simp] lemma getAgent_killSwitch (st : Store) (v : Option String) (aid : String) :
    getAgent { st with killSwitch := v } aid = getAgent st aid := rfl

/-- The kill-switch field does not affect the permission check. -/
@[simp] lemma check_permission_killSwitch (st : Store) (v : Option String)
    (aid act res : String) :
    check_permission { st with killSwitch := v } aid act res =
      check_permission st aid act res := rfl

/-- Setting the kill-switch field leaves the log table unchanged. -/
@[simp] lemma logs_killSwitch (st : Store) (v : Option String) :
    ({ st with killSwitch := v } : Store).logs = st.logs := rfl

/-- Setting the kill-switch field leaves the pending table unchanged. -/
@[simp] lemma pending_killSwitch (st : Store) (v : Option String) :
    ({ st with killSwitch := v } : Store).pending = st.pending := rfl

/-- Fault-free unfolding of `agent_request` when the kill switch is engaged. -/
lemma agent_request_noFaults_killOn (st : Store) (aid act res fid : String)
    (hks : check_system_kill_switch st = true) :
    agent_request st noFaults aid act res fid =
      Except.ok (⟨"denied",
        "System-wide kill switch is enabled. All agent actions are blocked.",
        "system_kill_switch_enabled",
        [⟨"kill_switch", "failed", "kill switch enabled - all requests blocked"⟩],
        some "human_intervention"⟩,
        { st with
          logs := st.logs ++ [⟨aid, act, res, "denied"⟩],
          pending := st.pending ++
            [⟨fid, aid, act, res, "system_kill_switch_enabled",
              [⟨"kill_switch", "failed", "kill switch enabled - all requests blocked"⟩],
              "human_intervention", "pending"⟩] }) := by
  simp [agent_request, tryBody, noFaults, hks, log_action]

/-- Fault-free unfolding of `agent_request` when the kill switch is off:
the outcome is decided by the agent lookup and the permission check. -/
lemma agent_request_noFaults_killOff (st : Store) (aid act res fid : String)
    (hks : check_system_kill_switch st = false) :
    agent_request st noFaults aid act res fid =
      match getAgent st aid with
      | none => Except.error (404, "Agent " ++ aid ++ " not found")
      | some a =>
        if a.status == "disabled" then
          Except.ok (⟨"denied", "Agent " ++ aid ++ " is disabled", "agent_disabled",
            [⟨"kill_switch", "passed", "kill switch off"⟩,
             ⟨"agent_status", "failed", "agent " ++ aid ++ " is disabled"⟩], none⟩,
            { st with logs := st.logs ++ [⟨aid, act, res, "denied"⟩] })
        else if check_permission st aid act res then
          Except.ok (⟨"approved", "Permission granted for " ++ act ++ " on " ++ res,
            "all_checks_passed",
            [⟨"kill_switch", "passed", "kill switch off"⟩,
             ⟨"agent_status", "passed", "agent active"⟩,
             ⟨"permission_rule", "passed",
              "permission granted for " ++ act ++ " on " ++ res⟩], none⟩,
            { st with logs := st.logs ++ [⟨aid, act, res, "approved"⟩] })
        else
          Except.ok (⟨"denied", "No permission for " ++ act ++ " on " ++ res,
            "permission_rule_failed",
            [⟨"kill_switch", "passed", "kill switch off"⟩,
             ⟨"agent_status", "passed", "agent active"⟩,
             ⟨"permission_rule", "failed",
              "no permission for " ++ act ++ " on " ++ res⟩], none⟩,
            { st with logs := st.logs ++ [⟨aid, act, res, "denied"⟩] }) := by
  cases hag : getAgent st aid with
  | none => simp [agent_request, tryBody, noFaults, hks, hag]
  | some a =>
    by_cases hd : a.status = "disabled"
    · simp [agent_request, tryBody, noFaults, hks, hag, hd, log_action]
    · by_cases hp : check_permission st aid act res
      · simp [agent_request, tryBody, noFaults, hks, hag, hd, hp, log_action]
      · simp [agent_request, tryBody, noFaults, hks, hag, hd, hp, log_action]

/-- Fault-free run, kill switch off, agent unknown: a 404 propagates. -/
lemma agent_request_noFaults_notFound (st : Store) (aid act res fid : String)
    (hks : check_system_kill_switch st = false) (hag : getAgent st aid = none) :
    agent_request st noFaults aid act res fid =
      Except.error (404, "Agent " ++ aid ++ " not found") := by
  rw [agent_request_noFaults_killOff st aid act res fid hks, hag]

/-- Fault-free run, kill switch off, agent disabled. -/
lemma agent_request_noFaults_disabled (st : Store) (aid act res fid : String)
    (a : Agent) (hks : check_system_kill_switch st = false)
    (hag : getAgent st aid = some a) (hd : a.status = "disabled") :
    agent_request st noFaults aid act res fid =
      Except.ok (⟨"denied", "Agent " ++ aid ++ " is disabled", "agent_disabled",
        [⟨"kill_switch", "passed", "kill switch off"⟩,
         ⟨"agent_status", "failed", "agent " ++ aid ++ " is disabled"⟩], none⟩,
        { st with logs := st.logs ++ [⟨aid, act, res, "denied"⟩] }) := by
  rw [agent_request_noFaults_killOff st aid act res fid hks, hag]
  simp [hd]

/-- Fault-free run, kill switch off, agent enabled, matching permission. -/
lemma agent_request_noFaults_approved (st : Store) (aid act res fid : String)
    (a : Agent) (hks : check_system_kill_switch st = false)
    (hag : getAgent st aid = some a) (hd : a.status ≠ "disabled")
    (hp : check_permission st aid act res = true) :
    agent_request st noFaults aid act res fid =
      Except.ok (⟨"approved", "Permission granted for " ++ act ++ " on " ++ res,
        "all_checks_passed",
        [⟨"kill_switch", "passed", "kill switch off"⟩,
         ⟨"agent_status", "passed", "agent active"⟩,
         ⟨"permission_rule", "passed",
          "permission granted for " ++ act ++ " on " ++ res⟩], none⟩,
        { st with logs := st.logs ++ [⟨aid, act, res, "approved"⟩] }) := by
  rw [agent_request_noFaults_killOff st aid act res fid hks, hag]
  simp [hd, hp]

/-- Fault-free run, kill switch off, agent enabled, no matching permission. -/
lemma agent_request_noFaults_noPerm (st : Store) (aid act res fid : String)
    (a : Agent) (hks : check_system_kill_switch st = false)
    (hag : getAgent st aid = some a) (hd : a.status ≠ "disabled")
    (hp : check_permission st aid act res = false) :
    agent_request st noFaults aid act res fid =
      Except.ok (⟨"denied", "No permission for " ++ act ++ " on " ++ res,
        "permission_rule_failed",
        [⟨"kill_switch", "passed", "kill switch off"⟩,
         ⟨"agent_status", "passed", "agent active"⟩,
         ⟨"permission_rule", "failed",
          "no permission for " ++ act ++ " on " ++ res⟩], none⟩,
        { st with logs := st.logs ++ [⟨aid, act, res, "denied"⟩] }) := by
  rw [agent_request_noFaults_killOff st aid act res fid hks, hag]
  simp [hd, hp]

/-- The externally observable outcome of an `authorize` call: the
response together with the log and pending-request tables it leaves
behind (the stored kill-switch value itself is projected away, since the
pipeline never writes it). -/
def effects (p : AgentRequestResponse × Store) :
    AgentRequestResponse × List LogRow × List PendingRequest :=
  (p.1, p.2.logs, p.2.pending)

/-- Two stores differing only in the stored kill-switch value produce the
same observable outcome whenever both values leave the switch off. -/
lemma agent_request_effects_killOff_congr (st : Store) (v w : Option String)
    (aid act res fid : String)
    (h1 : check_system_kill_switch { st with killSwitch := v } = false)
    (h2 : check_system_kill_switch { st with killSwitch := w } = false) :
    (agent_request { st with killSwitch := v } noFaults aid act res fid).map effects =
    (agent_request { st with killSwitch := w } noFaults aid act res fid).map effects := by
  cases hag : getAgent st aid with
  | none =>
    rw [agent_request_noFaults_notFound _ aid act res fid h1
          ((getAgent_killSwitch st v aid).trans hag),
        agent_request_noFaults_notFound _ aid act res fid h2
          ((getAgent_killSwitch st w aid).trans hag)]
  | some a =>
    by_cases hd : a.status = "disabled"
    · rw [agent_request_noFaults_disabled _ aid act res fid a h1
            ((getAgent_killSwitch st v aid).trans hag) hd,
          agent_request_noFaults_disabled _ aid act res fid a h2
            ((getAgent_killSwitch st w aid).trans hag) hd]
      rfl
    · by_cases hp : check_permission st aid act res
      · rw [agent_request_noFaults_approved _ aid act res fid a h1
              ((getAgent_killSwitch st v aid).trans hag) hd
              ((check_permission_killSwitch st v aid act res).trans hp),
            agent_request_noFaults_approved _ aid act res fid a h2
              ((getAgent_killSwitch st w aid).trans hag) hd
              ((check_permission_killSwitch st w aid act res).trans hp)]
        rfl
      · have hpf : check_permission st aid act res = false := by simpa using hp
        rw [agent_request_noFaults_noPerm _ aid act res fid a h1
              ((getAgent_killSwitch st v aid).trans hag) hd
              ((check_permission_killSwitch st v aid act res).trans hpf),
            agent_request_noFaults_noPerm _ aid act res fid a h2
              ((getAgent_killSwitch st w aid).trans hag) hd
              ((check_permission_killSwitch st w aid act res).trans hpf)]
        rfl

/-- Primary-key lookup after the status update: the looked-up row is the
old row with status `"resolved"`. -/
lemma find?_resolve_list (l : List PendingRequest) (rid : String) :
    (l.map (fun p =>
      if p.request_id == rid then { p with status := "resolved" } else p)).find?
        (fun p => p.request_id == rid) =
    (l.find? (fun p => p.request_id == rid)).map
      (fun p => { p with status := "resolved" }) := by
  induction l with
  | nil => rfl
  | cons p ps ih =>
    by_cases h : (p.request_id == rid) = true
    · have e1 : (({ p with status := "resolved" } : PendingRequest) ::
          ps.map (fun q =>
            if q.request_id == rid then { q with status := "resolved" } else q)).find?
            (fun q => q.request_id == rid) =
          some { p with status := "resolved" } :=
        List.find?_cons_of_pos _ h
      have e2 : (p :: ps).find? (fun q => q.request_id == rid) = some p :=
        List.find?_cons_of_pos _ h
      rw [List.map_cons, if_pos h, e1, e2]
      rfl
    · have e1 : (p :: ps.map (fun q =>
          if q.request_id == rid then { q with status := "resolved" } else q)).find?
            (fun q => q.request_id == rid) =
          (ps.map (fun q =>
            if q.request_id == rid then { q with status := "resolved" } else q)).find?
            (fun q => q.request_id == rid) :=
        List.find?_cons_of_neg _ h
      have e2 : (p :: ps).find? (fun q => q.request_id == rid) =
          ps.find? (fun q => q.request_id == rid) :=
        List.find?_cons_of_neg _ h
      rw [List.map_cons, if_neg h, e1, e2, ih]

/-- `getPending` after `resolvePending` on the same id. -/
lemma getPending_resolvePending (st : Store) (rid : String) :
    getPending (resolvePending st rid) rid =
      (getPending st rid).map (fun p => { p with status := "resolved" }) :=
  find?_resolve_list st.pending rid

/-! ## Claim theorems -/

/-- C1: whenever the kill-switch row holds the value `"enabled"`, `authorize`
returns denied with reason `"system_kill_switch_enabled"` and
actionRequired `"human_intervention"`, writes one denied audit log, and
creates exactly one `PendingRequest` with status `"pending"` and reason
`"system_kill_switch_enabled"` — for every store, so regardless of the
agents and permissions tables, which are never consulted. -/
theorem c1_kill_switch_denies_all (st : Store) (aid act res fid : String)
    (h : st.killSwitch = some "enabled") :
    agent_request st noFaults aid act res fid =
      Except.ok (⟨"denied",
        "System-wide kill switch is enabled. All agent actions are blocked.",
        "system_kill_switch_enabled",
        [⟨"kill_switch", "failed", "kill switch enabled - all requests blocked"⟩],
        some "human_intervention"⟩,
        { st with
          logs := st.logs ++ [⟨aid, act, res, "denied"⟩],
          pending := st.pending ++
            [⟨fid, aid, act, res, "system_kill_switch_enabled",
              [⟨"kill_switch", "failed", "kill switch enabled - all requests blocked"⟩],
              "human_intervention", "pending"⟩] }) := by
  simp [agent_request, tryBody, noFaults, check_system_kill_switch, h, log_action]

/-- Witness for C1 at a concrete store and request. -/
theorem c1_kill_switch_denies_all_witness :
    ({ killSwitch := some "enabled", agents := [], permissions := [],
       logs := [], pending := [] } : Store).killSwitch = some "enabled" ∧
    agent_request
      { killSwitch := some "enabled", agents := [], permissions := [],
        logs := [], pending := [] } noFaults "a1" "read" "db" "r1" =
      Except.ok (⟨"denied",
        "System-wide kill switch is enabled. All agent actions are blocked.",
        "system_kill_switch_enabled",
        [⟨"kill_switch", "failed", "kill switch enabled - all requests blocked"⟩],
        some "human_intervention"⟩,
        { killSwitch := some "enabled", agents := [], permissions := [],
          logs := [⟨"a1", "read", "db", "denied"⟩],
          pending := [⟨"r1", "a1", "read", "db", "system_kill_switch_enabled",
            [⟨"kill_switch", "failed", "kill switch enabled - all requests blocked"⟩],
            "human_intervention", "pending"⟩] }) :=
  ⟨rfl, c1_kill_switch_denies_all _ "a1" "read" "db" "r1" rfl⟩

/-- C2: any unexpected internal fault raised inside the try block of
`authorize` (surfacing as a `TryOut.exn` outcome, which covers faults in
the kill-switch, agent-status and permission steps) is converted to a
returned Decision with result `"denied"`, reason `"system_error"` and
actionRequired `"human_intervention"` — for every fault environment, so a
failure of the secondary audit-log or pending-request writes never
propagates; when those secondary writes succeed, the denied audit log and
the `"system_error"` pending request are both written. -/
theorem c2_internal_fault_fails_safe (st st1 : Store) (f : Faults)
    (aid act res fid m : String) (tr : List TraceEntry)
    (h : tryBody st f aid act res fid = TryOut.exn m tr st1) :
    ∃ st2, agent_request st f aid act res fid =
      Except.ok (⟨"denied", "System error occurred during request processing",
        "system_error",
        tr ++ [⟨"system_error", "failed", "system error occurred: " ++ m⟩],
        some "human_intervention"⟩, st2) ∧
      (f.logWrite = none → f.pendingWrite = none →
        st2.logs = st1.logs ++ [⟨aid, act, res, "denied"⟩] ∧
        st2.pending = st1.pending ++
          [⟨fid, aid, act, res, "system_error",
            tr ++ [⟨"system_error", "failed", "system error occurred: " ++ m⟩],
            "human_intervention", "pending"⟩]) := by
  refine ⟨(handle_error st1 f aid act res fid m tr).2, ?_, ?_⟩
  · simp only [agent_request, h]
    rfl
  · intro hl hp
    simp [handle_error, hl, hp, log_action]

/-- Witness for C2: a kill-switch read fault on a concrete store. -/
theorem c2_internal_fault_fails_safe_witness :
    tryBody ⟨none, [], [], [], []⟩ ⟨some "db down", none, none, none, none⟩
      "a1" "read" "db" "r1" =
      TryOut.exn "db down" [] ⟨none, [], [], [], []⟩ ∧
    ∃ st2, agent_request ⟨none, [], [], [], []⟩
        ⟨some "db down", none, none, none, none⟩ "a1" "read" "db" "r1" =
      Except.ok (⟨"denied", "System error occurred during request processing",
        "system_error",
        [] ++ [⟨"system_error", "failed", "system error occurred: " ++ "db down"⟩],
        some "human_intervention"⟩, st2) ∧
      ((⟨some "db down", none, none, none, none⟩ : Faults).logWrite = none →
       (⟨some "db down", none, none, none, none⟩ : Faults).pendingWrite = none →
        st2.logs = [] ++ [⟨"a1", "read", "db", "denied"⟩] ∧
        st2.pending = [] ++
          [⟨"r1", "a1", "read", "db", "system_error",
            [] ++ [⟨"system_error", "failed", "system error occurred: " ++ "db down"⟩],
            "human_intervention", "pending"⟩]) :=
  ⟨rfl, c2_internal_fault_fails_safe ⟨none, [], [], [], []⟩ ⟨none, [], [], [], []⟩
    ⟨some "db down", none, none, none, none⟩ "a1" "read" "db" "r1" "db down" [] rfl⟩

/-- C5: every fault-free `authorize` call that returns a Decision writes
exactly one audit log row, whose result equals the returned
Decision.result. -/
theorem c5_one_log_per_decision (st st' : Store) (aid act res fid : String)
    (resp : AgentRequestResponse)
    (h : agent_request st noFaults aid act res fid = Except.ok (resp, st')) :
    st'.logs = st.logs ++ [⟨aid, act, res, resp.result⟩] := by
  by_cases hks : check_system_kill_switch st
  · rw [agent_request_noFaults_killOn st aid act res fid hks] at h
    obtain ⟨h1, h2⟩ := by simpa using h
    subst h2
    simp [← h1]
  · rw [agent_request_noFaults_killOff st aid act res fid (by simpa using hks)] at h
    cases hag : getAgent st aid with
    | none => rw [hag] at h; simp at h
    | some a =>
      rw [hag] at h
      by_cases hd : a.status = "disabled"
      · simp only [hd] at h
        obtain ⟨h1, h2⟩ := by simpa using h
        subst h2
        simp [← h1]
      · by_cases hp : check_permission st aid act res
        · simp only [hp] at h
          obtain ⟨h1, h2⟩ := by simpa [hd] using h
          subst h2
          simp [← h1]
        · simp only [hp] at h
          obtain ⟨h1, h2⟩ := by simpa [hd] using h
          subst h2
          simp [← h1]

/-- Witness for C5 on a concrete approved call. -/
theorem c5_one_log_per_decision_witness :
    agent_request sampleStore noFaults "a1" "read" "db" "r1" =
      Except.ok (⟨"approved", "Permission granted for read on db",
        "all_checks_passed",
        [⟨"kill_switch", "passed", "kill switch off"⟩,
         ⟨"agent_status", "passed", "agent active"⟩,
         ⟨"permission_rule", "passed", "permission granted for read on db"⟩], none⟩,
        { sampleStore with logs := sampleStore.logs ++ [⟨"a1", "read", "db", "approved"⟩] }) ∧
    ({ sampleStore with logs := sampleStore.logs ++ [⟨"a1", "read", "db", "approved"⟩] } : Store).logs =
      sampleStore.logs ++ [⟨"a1", "read", "db", "approved"⟩] :=
  ⟨rfl,
   c5_one_log_per_decision sampleStore
     { sampleStore with logs := sampleStore.logs ++ [⟨"a1", "read", "db", "approved"⟩] }
     "a1" "read" "db" "r1"
     ⟨"approved", "Permission granted for read on db", "all_checks_passed",
       [⟨"kill_switch", "passed", "kill switch off"⟩,
        ⟨"agent_status", "passed", "agent active"⟩,
        ⟨"permission_rule", "passed", "permission granted for read on db"⟩], none⟩
     rfl⟩

/-- C8: with the kill switch off and the agent present but disabled,
`authorize` returns denied with reason `"agent_disabled"`, writes one
denied audit log, and leaves the pending-request table unchanged — for
every store, in particular when a matching permission exists. -/
theorem c8_disabled_agent_no_escalation (st : Store) (aid act res fid : String)
    (a : Agent) (hks : check_system_kill_switch st = false)
    (hag : getAgent st aid = some a) (hdis : a.status = "disabled") :
    agent_request st noFaults aid act res fid =
      Except.ok (⟨"denied", "Agent " ++ aid ++ " is disabled", "agent_disabled",
        [⟨"kill_switch", "passed", "kill switch off"⟩,
         ⟨"agent_status", "failed", "agent " ++ aid ++ " is disabled"⟩], none⟩,
        { st with logs := st.logs ++ [⟨aid, act, res, "denied"⟩] }) := by
  rw [agent_request_noFaults_killOff st aid act res fid hks, hag]
  simp [hdis]

/-- Witness for C8: disabled agent `"a1"` with a matching permission row. -/
theorem c8_disabled_agent_no_escalation_witness :
    check_system_kill_switch
      ⟨some "disabled", [⟨"a1", "Agent One", "o1", "disabled"⟩],
       [⟨"p1", "a1", "read", "db", none⟩], [], []⟩ = false ∧
    getAgent
      ⟨some "disabled", [⟨"a1", "Agent One", "o1", "disabled"⟩],
       [⟨"p1", "a1", "read", "db", none⟩], [], []⟩ "a1" =
      some ⟨"a1", "Agent One", "o1", "disabled"⟩ ∧
    (⟨"a1", "Agent One", "o1", "disabled"⟩ : Agent).status = "disabled" ∧
    agent_request
      ⟨some "disabled", [⟨"a1", "Agent One", "o1", "disabled"⟩],
       [⟨"p1", "a1", "read", "db", none⟩], [], []⟩ noFaults "a1" "read" "db" "r1" =
      Except.ok (⟨"denied", "Agent " ++ "a1" ++ " is disabled", "agent_disabled",
        [⟨"kill_switch", "passed", "kill switch off"⟩,
         ⟨"agent_status", "failed", "agent " ++ "a1" ++ " is disabled"⟩], none⟩,
        ⟨some "disabled", [⟨"a1", "Agent One", "o1", "disabled"⟩],
         [⟨"p1", "a1", "read", "db", none⟩], [⟨"a1", "read", "db", "denied"⟩], []⟩) :=
  ⟨rfl, rfl, rfl,
   c8_disabled_agent_no_escalation
     ⟨some "disabled", [⟨"a1", "Agent One", "o1", "disabled"⟩],
      [⟨"p1", "a1", "read", "db", none⟩], [], []⟩
     "a1" "read" "db" "r1" ⟨"a1", "Agent One", "o1", "disabled"⟩ rfl rfl rfl⟩

/-- C3: under the documented agent-status invariant (status is `"active"`
or `"disabled"`), a fault-free `authorize` call returns result
`"approved"` exactly when the kill switch is not engaged, the agent exists
with status `"active"`, and a permission row matches the triple exactly;
and every approved response has reason `"all_checks_passed"` and a trace
consisting exactly of kill_switch/passed, agent_status/passed,
permission_rule/passed, in that order. -/
theorem c3_approved_iff_all_checks (st : Store) (aid act res fid : String)
    (hwf : ∀ a ∈ st.agents, a.status = "active" ∨ a.status = "disabled") :
    ((∃ resp st', agent_request st noFaults aid act res fid = Except.ok (resp, st') ∧
        resp.result = "approved") ↔
      (check_system_kill_switch st = false ∧
       (∃ a, getAgent st aid = some a ∧ a.status = "active") ∧
       check_permission st aid act res = true)) ∧
    (∀ resp st', agent_request st noFaults aid act res fid = Except.ok (resp, st') →
      resp.result = "approved" →
      resp.reason = "all_checks_passed" ∧
      resp.decision_trace.map (fun e => (e.rule_checked, e.rule_result)) =
        [("kill_switch", "passed"), ("agent_status", "passed"),
         ("permission_rule", "passed")]) := by
  by_cases hks : check_system_kill_switch st
  · rw [agent_request_noFaults_killOn st aid act res fid hks]
    constructor
    · constructor
      · rintro ⟨resp, st', heq, hres⟩
        injection heq with hpq
        injection hpq with h1 h2
        subst h1
        exact absurd (show ("denied" : String) = "approved" from hres) (by decide)
      · rintro ⟨hks', -, -⟩
        rw [hks] at hks'
        exact absurd hks' (by decide)
    · intro resp st' heq hres
      injection heq with hpq
      injection hpq with h1 h2
      subst h1
      exact absurd (show ("denied" : String) = "approved" from hres) (by decide)
  · have hksf : check_system_kill_switch st = false := by simpa using hks
    cases hag : getAgent st aid with
    | none =>
      rw [agent_request_noFaults_notFound st aid act res fid hksf hag]
      constructor
      · constructor
        · rintro ⟨resp, st', heq, -⟩
          exact Except.noConfusion heq
        · rintro ⟨-, ⟨a, ha, -⟩, -⟩
          exact Option.noConfusion ha
      · intro resp st' heq
        exact Except.noConfusion heq
    | some a =>
      have hmem : a ∈ st.agents := List.mem_of_find?_eq_some hag
      by_cases hd : a.status = "disabled"
      · rw [agent_request_noFaults_disabled st aid act res fid a hksf hag hd]
        constructor
        · constructor
          · rintro ⟨resp, st', heq, hres⟩
            injection heq with hpq
            injection hpq with h1 h2
            subst h1
            exact absurd (show ("denied" : String) = "approved" from hres) (by decide)
          · rintro ⟨-, ⟨a', ha', hact⟩, -⟩
            injection ha' with ha2
            rw [← ha2] at hact
            rw [hd] at hact
            exact absurd hact (by decide)
        · intro resp st' heq hres
          injection heq with hpq
          injection hpq with h1 h2
          subst h1
          exact absurd (show ("denied" : String) = "approved" from hres) (by decide)
      · have hact : a.status = "active" := (hwf a hmem).resolve_right hd
        by_cases hp : check_permission st aid act res
        · rw [agent_request_noFaults_approved st aid act res fid a hksf hag hd hp]
          constructor
          · constructor
            · intro _
              exact ⟨hksf, ⟨a, rfl, hact⟩, hp⟩
            · intro _
              exact ⟨_, _, rfl, rfl⟩
          · intro resp st' heq hres
            injection heq with hpq
            injection hpq with h1 h2
            subst h1
            exact ⟨rfl, rfl⟩
        · have hpf : check_permission st aid act res = false := by simpa using hp
          rw [agent_request_noFaults_noPerm st aid act res fid a hksf hag hd hpf]
          constructor
          · constructor
            · rintro ⟨resp, st', heq, hres⟩
              injection heq with hpq
              injection hpq with h1 h2
              subst h1
              exact absurd (show ("denied" : String) = "approved" from hres) (by decide)
            · rintro ⟨-, -, hp'⟩
              rw [hpf] at hp'
              exact absurd hp' (by decide)
          · intro resp st' heq hres
            injection heq with hpq
            injection hpq with h1 h2
            subst h1
            exact absurd (show ("denied" : String) = "approved" from hres) (by decide)

/-- Witness for C3 on the sample store. -/
theorem c3_approved_iff_all_checks_witness :
    (∀ a ∈ sampleStore.agents, a.status = "active" ∨ a.status = "disabled") ∧
    (((∃ resp st', agent_request sampleStore noFaults "a1" "read" "db" "r1" =
          Except.ok (resp, st') ∧ resp.result = "approved") ↔
      (check_system_kill_switch sampleStore = false ∧
       (∃ a, getAgent sampleStore "a1" = some a ∧ a.status = "active") ∧
       check_permission sampleStore "a1" "read" "db" = true)) ∧
    (∀ resp st', agent_request sampleStore noFaults "a1" "read" "db" "r1" =
        Except.ok (resp, st') →
      resp.result = "approved" →
      resp.reason = "all_checks_passed" ∧
      resp.decision_trace.map (fun e => (e.rule_checked, e.rule_result)) =
        [("kill_switch", "passed"), ("agent_status", "passed"),
         ("permission_rule", "passed")])) :=
  ⟨by decide, c3_approved_iff_all_checks sampleStore "a1" "read" "db" "r1" (by decide)⟩

/-- C9: a store with no kill-switch row and the same store with the row
holding `"disabled"` yield the same decision, trace, log write and
pending-request effects on every fault-free `authorize` call. -/
theorem c9_absent_flag_behaves_as_disabled (st : Store) (aid act res fid : String) :
    (agent_request { st with killSwitch := none } noFaults aid act res fid).map effects =
    (agent_request { st with killSwitch := some "disabled" }
      noFaults aid act res fid).map effects :=
  agent_request_effects_killOff_congr st none (some "disabled") aid act res fid rfl rfl

/-- C10: every stored kill-switch value other than the exact string
`"enabled"` behaves exactly like `"disabled"`: the gate passes and the
call proceeds to the agent and permission checks with identical effects. -/
theorem c10_non_enabled_value_behaves_as_disabled (st : Store)
    (v aid act res fid : String) (hv : v ≠ "enabled") :
    (agent_request { st with killSwitch := some v } noFaults aid act res fid).map effects =
    (agent_request { st with killSwitch := some "disabled" }
      noFaults aid act res fid).map effects :=
  agent_request_effects_killOff_congr st (some v) (some "disabled") aid act res fid
    (by simp [check_system_kill_switch, hv]) rfl

/-- Witness for C10 with the corrupted value `"ENABLED"`. -/
theorem c10_non_enabled_value_behaves_as_disabled_witness :
    ("ENABLED" : String) ≠ "enabled" ∧
    (agent_request { sampleStore with killSwitch := some "ENABLED" }
      noFaults "a1" "read" "db" "r1").map effects =
    (agent_request { sampleStore with killSwitch := some "disabled" }
      noFaults "a1" "read" "db" "r1").map effects :=
  ⟨by decide,
   c10_non_enabled_value_behaves_as_disabled sampleStore "ENABLED"
     "a1" "read" "db" "r1" (by decide)⟩

/-- C4: resolving a pending escalation is idempotent-once.  On a stored
request with status `"pending"`: approve returns approved/"human_override"
with actionRequired `none` and the stored trace plus a trailing
human_decision/passed entry, marks the stored row resolved, and writes one
approved audit log; deny behaves symmetrically with human_decision/failed
and a denied log; and any approve or deny against a store in which the id
is absent or not pending (in particular the store left behind by the first
resolution) returns denied/"system_error" and leaves the store completely
unchanged — no mutation and no log write. -/
theorem c4_escalation_resolved_once (st : Store) (rid hid hid2 : String)
    (nts nts2 : Option String) (pr : PendingRequest)
    (hfind : getPending st rid = some pr) (hstat : pr.status = "pending") :
    (human_approve st rid hid).1 =
      ⟨"approved", "human_override",
        pr.decision_trace ++
          [⟨"human_decision", "passed", "approved by human " ++ hid⟩], none⟩ ∧
    getPending (human_approve st rid hid).2 rid =
      some { pr with status := "resolved" } ∧
    (human_approve st rid hid).2.logs =
      st.logs ++ [⟨pr.agent_id, pr.action, pr.resource, "approved"⟩] ∧
    human_approve (human_approve st rid hid).2 rid hid2 =
      (resolverErrorResponse rid, (human_approve st rid hid).2) ∧
    human_deny (human_approve st rid hid).2 rid hid2 nts2 =
      (resolverErrorResponse rid, (human_approve st rid hid).2) ∧
    (human_deny st rid hid nts).1 =
      ⟨"denied", "human_override",
        pr.decision_trace ++
          [⟨"human_decision", "failed", deny_notes hid nts⟩], none⟩ ∧
    getPending (human_deny st rid hid nts).2 rid =
      some { pr with status := "resolved" } ∧
    (human_deny st rid hid nts).2.logs =
      st.logs ++ [⟨pr.agent_id, pr.action, pr.resource, "denied"⟩] ∧
    (∀ st0 : Store,
      (∀ pr0, getPending st0 rid = some pr0 → pr0.status ≠ "pending") →
      human_approve st0 rid hid2 = (resolverErrorResponse rid, st0) ∧
      human_deny st0 rid hid2 nts2 = (resolverErrorResponse rid, st0)) := by
  have hsb : (pr.status == "pending") = true := by simp [hstat]
  have happ : human_approve st rid hid =
      (⟨"approved", "human_override",
        pr.decision_trace ++
          [⟨"human_decision", "passed", "approved by human " ++ hid⟩], none⟩,
       log_action (resolvePending st rid) pr.agent_id pr.action pr.resource
         "approved") := by
    simp [human_approve, hfind, hsb]
  have hden : human_deny st rid hid nts =
      (⟨"denied", "human_override",
        pr.decision_trace ++
          [⟨"human_decision", "failed", deny_notes hid nts⟩], none⟩,
       log_action (resolvePending st rid) pr.agent_id pr.action pr.resource
         "denied") := by
    simp [human_deny, hfind, hsb]
  have hgp : getPending (log_action (resolvePending st rid) pr.agent_id pr.action
      pr.resource "approved") rid = some { pr with status := "resolved" } := by
    show getPending (resolvePending st rid) rid = _
    rw [getPending_resolvePending, hfind]
    rfl
  have hgpd : getPending (log_action (resolvePending st rid) pr.agent_id pr.action
      pr.resource "denied") rid = some { pr with status := "resolved" } := by
    show getPending (resolvePending st rid) rid = _
    rw [getPending_resolvePending, hfind]
    rfl
  have hrb : (({ pr with status := "resolved" } : PendingRequest).status ==
      "pending") = false := rfl
  have happ2 : human_approve (log_action (resolvePending st rid) pr.agent_id
      pr.action pr.resource "approved") rid hid2 =
      (resolverErrorResponse rid,
       log_action (resolvePending st rid) pr.agent_id pr.action pr.resource
         "approved") := by
    simp [human_approve, hgp, hrb]
  have hden2 : human_deny (log_action (resolvePending st rid) pr.agent_id
      pr.action pr.resource "approved") rid hid2 nts2 =
      (resolverErrorResponse rid,
       log_action (resolvePending st rid) pr.agent_id pr.action pr.resource
         "approved") := by
    simp [human_deny, hgp, hrb]
  refine ⟨by rw [happ], by rw [happ]; exact hgp, by rw [happ]; rfl,
    by rw [happ]; exact happ2, by rw [happ]; exact hden2,
    by rw [hden], by rw [hden]; exact hgpd, by rw [hden]; rfl, ?_⟩
  intro st0 hno
  cases hg : getPending st0 rid with
  | none =>
    constructor
    · simp [human_approve, hg]
    · simp [human_deny, hg]
  | some pr0 =>
    have hb0 : (pr0.status == "pending") = false := by
      simp [hno pr0 hg]
    constructor
    · simp [human_approve, hg, hb0]
    · simp [human_deny, hg, hb0]

/-- A concrete stored pending escalation used by witnesses. -/
def pendingReq : PendingRequest :=
  ⟨"r1", "a1", "write", "db", "system_kill_switch_enabled",
   [⟨"kill_switch", "failed", "kill switch enabled - all requests blocked"⟩],
   "human_intervention", "pending"⟩

/-- A concrete store holding exactly one pending escalation. -/
def pendingStore : Store :=
  ⟨some "disabled", [], [], [], [pendingReq]⟩

/-- Witness for C4 on the concrete pending escalation. -/
theorem c4_escalation_resolved_once_witness :
    getPending pendingStore "r1" = some pendingReq ∧
    pendingReq.status = "pending" ∧
    ((human_approve pendingStore "r1" "alice").1 =
      ⟨"approved", "human_override",
        pendingReq.decision_trace ++
          [⟨"human_decision", "passed", "approved by human " ++ "alice"⟩], none⟩ ∧
    getPending (human_approve pendingStore "r1" "alice").2 "r1" =
      some { pendingReq with status := "resolved" } ∧
    (human_approve pendingStore "r1" "alice").2.logs =
      pendingStore.logs ++
        [⟨pendingReq.agent_id, pendingReq.action, pendingReq.resource, "approved"⟩] ∧
    human_approve (human_approve pendingStore "r1" "alice").2 "r1" "bob" =
      (resolverErrorResponse "r1", (human_approve pendingStore "r1" "alice").2) ∧
    human_deny (human_approve pendingStore "r1" "alice").2 "r1" "bob" (some "nope") =
      (resolverErrorResponse "r1", (human_approve pendingStore "r1" "alice").2) ∧
    (human_deny pendingStore "r1" "alice" none).1 =
      ⟨"denied", "human_override",
        pendingReq.decision_trace ++
          [⟨"human_decision", "failed", deny_notes "alice" none⟩], none⟩ ∧
    getPending (human_deny pendingStore "r1" "alice" none).2 "r1" =
      some { pendingReq with status := "resolved" } ∧
    (human_deny pendingStore "r1" "alice" none).2.logs =
      pendingStore.logs ++
        [⟨pendingReq.agent_id, pendingReq.action, pendingReq.resource, "denied"⟩] ∧
    (∀ st0 : Store,
      (∀ pr0, getPending st0 "r1" = some pr0 → pr0.status ≠ "pending") →
      human_approve st0 "r1" "bob" = (resolverErrorResponse "r1", st0) ∧
      human_deny st0 "r1" "bob" (some "nope") = (resolverErrorResponse "r1", st0))) :=
  ⟨rfl, rfl,
   c4_escalation_resolved_once pendingStore "r1" "alice" "bob" none (some "nope")
     pendingReq rfl rfl⟩

/-- C6 counterexample: on a store where every check passes (fault-free run
approves), injecting a failure into the audit-log write makes `authorize`
return denied/"system_error" — the caller does not receive the approved
Decision that was computed; the outer fail-safe handler replaces it. -/
theorem c6_audit_failure_counterexample :
    (agent_request sampleStore noFaults "a1" "read" "db" "r1").toOption.map
      (fun p => p.1.result) = some "approved" ∧
    (agent_request sampleStore ⟨none, none, none, some "disk full", none⟩
      "a1" "read" "db" "r1").toOption.map
      (fun p => (p.1.result, p.1.reason, p.1.action_required)) =
      some ("denied", "system_error", some "human_intervention") :=
  ⟨rfl, rfl⟩

/-- C6 amended: when all three checks pass but the audit-log write fails,
the failure does not propagate as a fault; instead the outer fail-safe
handler returns a denied Decision with reason `"system_error"` and
actionRequired `"human_intervention"` — replacing, not preserving, the
approved outcome that was computed. -/
theorem c6_audit_failure_fails_safe (st : Store) (f : Faults)
    (aid act res fid m : String) (a : Agent)
    (hkr : f.killRead = none) (har : f.agentRead = none) (hpr : f.permRead = none)
    (hlw : f.logWrite = some m)
    (hks : check_system_kill_switch st = false)
    (hag : getAgent st aid = some a) (hact : a.status ≠ "disabled")
    (hperm : check_permission st aid act res = true) :
    ∃ st', agent_request st f aid act res fid =
      Except.ok (⟨"denied", "System error occurred during request processing",
        "system_error",
        [⟨"kill_switch", "passed", "kill switch off"⟩,
         ⟨"agent_status", "passed", "agent active"⟩,
         ⟨"permission_rule", "passed",
          "permission granted for " ++ act ++ " on " ++ res⟩,
         ⟨"system_error", "failed", "system error occurred: " ++ m⟩],
        some "human_intervention"⟩, st') := by
  have htb : tryBody st f aid act res fid =
      TryOut.exn m
        [⟨"kill_switch", "passed", "kill switch off"⟩,
         ⟨"agent_status", "passed", "agent active"⟩,
         ⟨"permission_rule", "passed",
          "permission granted for " ++ act ++ " on " ++ res⟩] st := by
    simp [tryBody, hkr, hks, har, hag, hact, hpr, hperm, hlw]
  refine ⟨(handle_error st f aid act res fid m
    [⟨"kill_switch", "passed", "kill switch off"⟩,
     ⟨"agent_status", "passed", "agent active"⟩,
     ⟨"permission_rule", "passed",
      "permission granted for " ++ act ++ " on " ++ res⟩]).2, ?_⟩
  simp only [agent_request, htb]
  rfl

/-- Witness for the amended C6 on the sample store. -/
theorem c6_audit_failure_fails_safe_witness :
    (⟨none, none, none, some "disk full", none⟩ : Faults).killRead = none ∧
    (⟨none, none, none, some "disk full", none⟩ : Faults).agentRead = none ∧
    (⟨none, none, none, some "disk full", none⟩ : Faults).permRead = none ∧
    (⟨none, none, none, some "disk full", none⟩ : Faults).logWrite = some "disk full" ∧
    check_system_kill_switch sampleStore = false ∧
    getAgent sampleStore "a1" = some ⟨"a1", "Agent One", "o1", "active"⟩ ∧
    (⟨"a1", "Agent One", "o1", "active"⟩ : Agent).status ≠ "disabled" ∧
    check_permission sampleStore "a1" "read" "db" = true ∧
    ∃ st', agent_request sampleStore ⟨none, none, none, some "disk full", none⟩
        "a1" "read" "db" "r1" =
      Except.ok (⟨"denied", "System error occurred during request processing",
        "system_error",
        [⟨"kill_switch", "passed", "kill switch off"⟩,
         ⟨"agent_status", "passed", "agent active"⟩,
         ⟨"permission_rule", "passed",
          "permission granted for " ++ "read" ++ " on " ++ "db"⟩,
         ⟨"system_error", "failed", "system error occurred: " ++ "disk full"⟩],
        some "human_intervention"⟩, st') :=
  ⟨rfl, rfl, rfl, rfl, rfl, rfl, by decide, rfl,
   c6_audit_failure_fails_safe sampleStore
     ⟨none, none, none, some "disk full", none⟩ "a1" "read" "db" "r1" "disk full"
     ⟨"a1", "Agent One", "o1", "active"⟩ rfl rfl rfl rfl rfl rfl (by decide) rfl⟩

/-- C7: the code contradicts the documented `Log.result ∈ {approved,
denied}` invariant: `agent_kill` and `set_system_kill_switch` write audit
rows whose result is `"enabled"` (or `"disabled"`), evaluated here at a
concrete failing input. -/
theorem c7_kill_endpoints_log_non_enum_result :
    (agent_kill sampleStore "a1" "o1" true).toOption.map
      (fun p => p.2.logs.map (fun l => l.result)) = some ["enabled"] ∧
    (set_system_kill_switch sampleStore true).2.logs.map (fun l => l.result) =
      ["enabled"] ∧
    ("enabled" : String) ≠ "approved" ∧ ("enabled" : String) ≠ "denied" :=
  ⟨rfl, rfl, by decide, by decide⟩

end LayerAI
